import Mathlib

/-!
Verification development for the `soopchat` chat client
(package `github.com/halfdogs/soopchat`).

The client opens a websocket to a chat server, performs a two-phase
handshake (LOGIN then JOIN), and dispatches inbound binary frames to
registered observers.  Strings on the Go side are byte sequences; we
model a byte string as `List Nat` (each entry a byte value).  Socket
writes are modelled as always succeeding: a write failure aborts the
session in the code, and the claims under study quantify over
interleavings of inbound frames, not over transport failures.
-/

namespace Soopchat

/-- Bytes of a Go string (UTF-8 encoding, via the core encoder model). -/
def strBytes (s : String) : List Nat :=
  (s.data.flatMap String.utf8EncodeChar).map (fun b => b.toNat)

/-- `w` ASCII decimal digits of `n`, most significant first, zero-padded. -/
def padDigits (w n : Nat) : List Nat :=
  (List.range w).map (fun i => 48 + n / 10 ^ (w - 1 - i) % 10)

/-- Modelled from the spec: `makeHeader` (not under `src/`) encodes the
frame header as an escape marker followed by the numeric service code,
the body byte length and a flag field, each as zero-padded ASCII
decimal digits (layout taken from the captured frame
`"\x1b\t000100005807\f..."` quoted in the repository's readme). -/
def makeHeader (svc len flag : Nat) : List Nat :=
  [27, 9] ++ padDigits 4 svc ++ padDigits 6 len ++ padDigits 2 flag

/-- Modelled from the spec: `makeBuffer` (not under `src/`) builds a frame
body from an ordered field list; callers pass the protocol's `"\f"`
separators explicitly as fields, so the buffer is their concatenation. -/
def makeBuffer (fields : List (List Nat)) : List Nat :=
  fields.flatten

/-- ASCII decimal digit test on a byte. -/
def isDigitByte (b : Nat) : Bool :=
  48 ≤ b && b ≤ 57

/-- Modelled from the spec: the service-code constants (not under `src/`).
`svc_LOGIN = 1` and `svc_JOINCH = 2` are forced by the source's
`handshake[svc-1]` indexing; the remaining codes are distinct tags. -/
def svc_KEEPALIVE : Nat := 0

/-- Modelled from the spec: LOGIN service code (slot 1 of the cache). -/
def svc_LOGIN : Nat := 1

/-- Modelled from the spec: JOIN service code (slot 2 of the cache). -/
def svc_JOINCH : Nat := 2

/-- Modelled from the spec: roster (user join/leave) service code. -/
def svc_CHUSER : Nat := 4

/-- Modelled from the spec: chat-message service code (the literal `5`
also appears in `SendChatMessage`'s header). -/
def svc_CHATMESG : Nat := 5

/-- Modelled from the spec: balloon service code. -/
def svc_SENDBALLOON : Nat := 18

/-- Modelled from the spec: admin-notice service code. -/
def svc_SENDADMINNOTICE : Nat := 58

/-- Modelled from the spec: ad-balloon service code. -/
def svc_ADCON_EFFECT : Nat := 87

/-- Modelled from the spec: new-subscription service code. -/
def svc_FOLLOW_ITEM : Nat := 91

/-- Modelled from the spec: renewed-subscription service code. -/
def svc_FOLLOW_ITEM_EFFECT : Nat := 93

/-- Modelled from the spec: mission-donation service code. -/
def svc_MISSION : Nat := 121

/-- Modelled from the spec: `getServiceCode` (not under `src/`) decodes
the numeric service code from an inbound frame's header, failing when
the header cannot be read; its Go caller falls back to the zero value
`0` for the code on failure. -/
def getServiceCode (m : List Nat) : Except String Nat :=
  if m.length < 14 then
    .error "cannot read header"
  else if m.getD 0 0 ≠ 27 ∨ m.getD 1 0 ≠ 9 then
    .error "cannot read header"
  else if ¬ (isDigitByte (m.getD 2 0) ∧ isDigitByte (m.getD 3 0) ∧
             isDigitByte (m.getD 4 0) ∧ isDigitByte (m.getD 5 0)) then
    .error "cannot read header"
  else
    .ok ((m.getD 2 0 - 48) * 1000 + (m.getD 3 0 - 48) * 100 +
         (m.getD 4 0 - 48) * 10 + (m.getD 5 0 - 48))

/-- The service code of a frame, with the Go zero value on decode failure. -/
def codeOrZero (m : List Nat) : Nat :=
  match getServiceCode m with
  | .error _ => 0
  | .ok s => s

/-- `true` when the frame carries service code `k`. -/
def hasCode (m : List Nat) (k : Nat) : Bool :=
  match getServiceCode m with
  | .error _ => false
  | .ok s => s == k

/-- Identifier: the optional login credential pair inside a `Token`. -/
structure Identifier where
  ID : String := ""
  Password : String := ""
deriving DecidableEq

/-- Token: the immutable session construction input. The lower-case
fields (`authTicket`, `fanTicket`, `chatRoom`) are the package-private
session data populated by the HTTP bootstrap calls. -/
structure Token where
  StreamerID : String := ""
  Flag : String := ""
  Identifier : Identifier := {}
  authTicket : String := ""
  fanTicket : String := ""
  chatRoom : String := ""
deriving DecidableEq

/-- Client: the session state and the single-slot observer registry.
Observer slots are modelled by their registration status (`true` when a
callback is registered, i.e. the Go field is non-nil). -/
structure Client where
  token : Token := {}
  channelPassword : String := ""
  handshake : List (List Nat) := [[], []]
  onError : Bool := false
  onLogin : Bool := false
  onConnect : Bool := false
  onRawMessage : Bool := false
  onJoinChannel : Bool := false
  onUserLists : Bool := false
  onChatMessage : Bool := false
  onBalloon : Bool := false
  onAdballoon : Bool := false
  onSubscription : Bool := false
  onAdminNotice : Bool := false
  onMission : Bool := false
deriving DecidableEq

/-- `NewClient` validates the token and initialises the session state:
an empty `StreamerID` is rejected, otherwise the client starts with an
empty two-slot handshake cache and an empty channel password. -/
def NewClient (token : Token) : Except String Client :=
  if token.StreamerID = "" then
    .error "StreamerID is missing from token"
  else
    .ok { token := token, channelPassword := "", handshake := [[], []] }

/-- A field value inside the JOIN frame's nested `info`/`log` blocks.
The source builds these via reflection over struct fields; a field list
with typed values is the explicit form of that iteration. -/
inductive FieldVal where
  | str (s : String)
  | num (n : Int)
  | flag (b : Bool)
deriving DecidableEq

/-- Go's `reflect.Value.IsZero` on a field value. -/
def FieldVal.isZero : FieldVal → Bool
  | .str s => s == ""
  | .num n => n == 0
  | .flag b => !b

/-- Go's `fmt.Sprintf("%v", v)` rendering of a field value, as bytes. -/
def FieldVal.render : FieldVal → List Nat
  | .str s => strBytes s
  | .num n => strBytes (toString n)
  | .flag b => strBytes (if b then "true" else "false")

/-- One `info`-block entry: `key 0x11 value 0x12`, or nothing when the
field value is zero. -/
def infoEntry (f : String × FieldVal) : List Nat :=
  if f.2.isZero then [] else strBytes f.1 ++ [17] ++ f.2.render ++ [18]

/-- `setInfoHandshake`: the sparse key/value encoding of the `info`
block (fields iterated in declaration order, zero-valued fields
skipped). -/
def setInfoHandshake (fields : List (String × FieldVal)) : List Nat :=
  (fields.map infoEntry).flatten

/-- One `log`-block entry: `0x06 key 0x06 '=' 0x06 value 0x06 '&'`, or
nothing when the field value is zero. -/
def logEntry (f : String × FieldVal) : List Nat :=
  if f.2.isZero then [] else
    [6] ++ strBytes f.1 ++ [6, 61, 6] ++ f.2.render ++ [6, 38]

/-- `setLogValue`: the sparse key/value encoding of the `log` block,
prefixed by the fixed bytes `0x06 '&'`. -/
def setLogValue (fields : List (String × FieldVal)) : List Nat :=
  [6, 38] ++ (fields.map logEntry).flatten

/-- `setLogHandshake`: wraps the encoded `log` block as
`"log" 0x11 ... 0x12`. -/
def setLogHandshake (fields : List (String × FieldVal)) : List Nat :=
  strBytes "log" ++ [17] ++ setLogValue fields ++ [18]

/-- Modelled from the spec: `defaultLog` (not under `src/`) supplies the
JOIN frame's log block; the spec names no individual log fields, so the
default list is empty (sparse encoding then emits only the block
prefix). -/
def defaultLog : List (String × FieldVal) := []

/-- Modelled from the spec: `defaultInfo` (not under `src/`) supplies the
JOIN frame's info block, which carries the channel password; an empty
password is a zero value and is omitted by the sparse encoding. -/
def defaultInfo (password : String) : List (String × FieldVal) :=
  [("password", .str password)]

/-- `setHandshakeData`: encode `header ++ body` for service code `svc`
and store it in cache slot `svc - 1`. -/
def setHandshakeData (c : Client) (svc : Nat) (packet : List (List Nat)) : Client :=
  { c with handshake :=
      c.handshake.set (svc - 1) (makeHeader svc (makeBuffer packet).length 0 ++ makeBuffer packet) }

/-- `setLoginHandshke` (source spelling): build the LOGIN frame from the
authentication ticket and flag and store it in slot 1. -/
def setLoginHandshke (c : Client) : Client :=
  setHandshakeData c 1
    [[12], strBytes c.token.authTicket, [12], [12], strBytes c.token.Flag, [12]]

/-- The info packet of the JOIN frame: encoded log block followed by
encoded info block. -/
def joinInfoPacket (c : Client) : List Nat :=
  setLogHandshake defaultLog ++ setInfoHandshake (defaultInfo c.channelPassword)

/-- `setJoinHandshake`: build the JOIN frame from the chat-room id, fan
ticket and info packet and store it in slot 2. -/
def setJoinHandshake (c : Client) : Client :=
  setHandshakeData c 2
    [[12], strBytes c.token.chatRoom, [12], [12], strBytes c.token.fanTicket,
     strBytes "0", [12], [], [12], joinInfoPacket c, [12]]

/-- An event delivered to a registered observer. -/
inductive Event where
  | errorEvt (m : List Nat)
  | loginEvt (ok : Bool)
  | connectEvt (ok : Bool)
  | rawMessage (m : List Nat)
  | joinChannel (ok : Bool)
  | userLists (fields : List (List Nat))
  | chatMessage (fields : List (List Nat))
  | balloon (fields : List (List Nat))
  | adballoon (fields : List (List Nat))
  | subscription (fields : List (List Nat)) (svc : Nat)
  | adminNotice (fields : List (List Nat))
  | mission (fields : List (List Nat))
deriving DecidableEq

/-- An observable step of the session: a frame taken off the read
queue, a socket write (tagged with the service code the writer used),
or an observer invocation. -/
inductive Action where
  | recv (m : List Nat)
  | write (svc : Nat) (frame : List Nat)
  | evt (e : Event)
deriving DecidableEq

/-- A trace step: the action together with the client state at the
moment the action was performed. -/
abbrev Step := Client × Action

/-- Observer invocation guarded by registration status. -/
def evtsIf (b : Bool) (c : Client) (e : Event) : List Step :=
  if b then [(c, .evt e)] else []

/-- Split a frame body on the field-separator byte `0x0c`. -/
def splitFields : List Nat → List (List Nat)
  | [] => [[]]
  | b :: rest =>
      if b = 12 then [] :: splitFields rest
      else
        match splitFields rest with
        | f :: fs => (b :: f) :: fs
        | [] => [[b]]

/-- The positional field list of a frame's body (header bytes dropped). -/
def bodyFields (m : List Nat) : List (List Nat) :=
  splitFields (m.drop 14)

/-- Modelled from the spec: `parseJoinChannel` (not under `src/`) reads
the join acknowledgement from the frame body; its Go caller gets a bare
boolean. -/
def parseJoinChannel (m : List Nat) : Bool :=
  (bodyFields m).length ≥ 2

/-- Modelled from the spec: `parseUserJoin` (not under `src/`) maps the
roster frame's positional fields to join/leave entries; its Go caller
has no error branch, so it is total. -/
def parseUserJoin (m : List Nat) : List (List Nat) :=
  bodyFields m

/-- Modelled from the spec: `parseChatMessage` (not under `src/`) reads
the chat frame's positional fields and fails with a ParseError on a
malformed body (too few fields). -/
def parseChatMessage (m : List Nat) : Except String (List (List Nat)) :=
  if (bodyFields m).length < 3 then .error "chat: malformed body"
  else .ok (bodyFields m)

/-- Modelled from the spec: `parseBalloon` (not under `src/`), fallible
positional parse of a balloon frame. -/
def parseBalloon (m : List Nat) : Except String (List (List Nat)) :=
  if (bodyFields m).length < 3 then .error "balloon: malformed body"
  else .ok (bodyFields m)

/-- Modelled from the spec: `parseAdballoon` (not under `src/`), fallible
positional parse of an ad-balloon frame. -/
def parseAdballoon (m : List Nat) : Except String (List (List Nat)) :=
  if (bodyFields m).length < 3 then .error "adballoon: malformed body"
  else .ok (bodyFields m)

/-- Modelled from the spec: `parseSubscription` (not under `src/`),
fallible positional parse of a subscription frame; the service code
distinguishes new from renewed subscriptions. -/
def parseSubscription (m : List Nat) (svc : Nat) : Except String (List (List Nat)) :=
  if (bodyFields m).length < 3 then .error ("subscription: malformed body " ++ toString svc)
  else .ok (bodyFields m)

/-- Modelled from the spec: `parseAdminNotice` (not under `src/`),
fallible positional parse of an admin-notice frame. -/
def parseAdminNotice (m : List Nat) : Except String (List (List Nat)) :=
  if (bodyFields m).length < 1 then .error "admin: malformed body"
  else .ok (bodyFields m)

/-- Modelled from the spec: `parseMission` (not under `src/`), fallible
positional parse of a mission-donation frame. -/
def parseMission (m : List Nat) : Except String (List (List Nat)) :=
  if (bodyFields m).length < 3 then .error "mission: malformed body"
  else .ok (bodyFields m)

/-- The synthetic read-error marker pushed by the read activity:
`"error: "` prefixed byte strings. -/
def isErrMsg (m : List Nat) : Bool :=
  (strBytes "error: ").isPrefixOf m

/-- `setHandshake`: write cache slot `svc - 1` to the socket; after the
JOIN write, report success through the connect observer. -/
def setHandshake (c : Client) (svc : Nat) : List Step :=
  (c, .write svc (c.handshake.getD (svc - 1) [])) ::
    evtsIf (svc == svc_JOINCH && c.onConnect) c (.connectEvt true)

/-- `executeHandshake`: build the frame for the requested phase, then
transmit it (the build happens immediately before the send). -/
def executeHandshake (c : Client) (svc : Nat) : Client × List Step :=
  let c' := if svc == svc_LOGIN then setLoginHandshke c
            else if svc == svc_JOINCH then setJoinHandshake c
            else c
  (c', setHandshake c' svc)

/-- A fallible parse dispatched to a kind observer: a parse failure is
reported through the error observer, a success through the kind
observer. -/
def parsedEvt (c : Client) (registered : Bool) (r : Except String (List (List Nat)))
    (mk : List (List Nat) → Event) (m : List Nat) : List Step :=
  if registered then
    match r with
    | .error _ => evtsIf c.onError c (.errorEvt m)
    | .ok fs => [(c, .evt (mk fs))]
  else []

/-- The service-code switch of the dispatch loop: the LOGIN code
triggers the JOIN handshake, every other recognised code parses and
emits its event only when the kind observer is registered, and
unrecognised codes (including the zero code left by a failed decode)
are ignored. -/
def switchCase (c : Client) (svc : Nat) (m : List Nat) : Client × List Step :=
  if svc == svc_LOGIN then
    executeHandshake c svc_JOINCH
  else if svc == svc_JOINCH then
    (c, evtsIf c.onJoinChannel c (.joinChannel (parseJoinChannel m)))
  else if svc == svc_CHUSER then
    (c, evtsIf c.onUserLists c (.userLists (parseUserJoin m)))
  else if svc == svc_CHATMESG then
    (c, parsedEvt c c.onChatMessage (parseChatMessage m) .chatMessage m)
  else if svc == svc_SENDBALLOON then
    (c, parsedEvt c c.onBalloon (parseBalloon m) .balloon m)
  else if svc == svc_ADCON_EFFECT then
    (c, parsedEvt c c.onAdballoon (parseAdballoon m) .adballoon m)
  else if svc == svc_FOLLOW_ITEM || svc == svc_FOLLOW_ITEM_EFFECT then
    (c, parsedEvt c c.onSubscription (parseSubscription m svc)
          (fun fs => .subscription fs svc) m)
  else if svc == svc_SENDADMINNOTICE then
    (c, parsedEvt c c.onAdminNotice (parseAdminNotice m) .adminNotice m)
  else if svc == svc_MISSION then
    (c, parsedEvt c c.onMission (parseMission m) .mission m)
  else
    (c, [])

/-- One iteration of the dispatch loop body on a drained message:
report a synthetic read error, invoke the raw observer, decode the
service code (reporting a decode failure), then run the switch. -/
def parserStep (c : Client) (m : List Nat) : Client × List Step :=
  let a1 := evtsIf (isErrMsg m && c.onError) c (.errorEvt m)
  let a2 := evtsIf c.onRawMessage c (.rawMessage m)
  let a3 := match getServiceCode m with
            | .error _ => evtsIf c.onError c (.errorEvt m)
            | .ok _ => []
  let s := switchCase c (codeOrZero m) m
  (s.1, a1 ++ a2 ++ a3 ++ s.2)

/-- The state left behind by one dispatch-loop iteration. -/
def stepClient (c : Client) (m : List Nat) : Client :=
  (parserStep c m).1

/-- The trace of one dispatch-loop iteration, beginning with the
`recv` of the drained message. -/
def stepActs (c : Client) (m : List Nat) : List Step :=
  (c, .recv m) :: (parserStep c m).2

/-- `startParser`: the dispatch loop, the single consumer of the read
queue, draining messages strictly in arrival order. -/
def startParser (c : Client) : List (List Nat) → List Step
  | [] => []
  | m :: rest => stepActs c m ++ startParser (stepClient c m) rest

/-- `processSocket`: the session pipeline after the socket is open —
the LOGIN handshake (build then send) followed by the dispatch loop
over the inbound messages. -/
def processSocket (c : Client) (msgs : List (List Nat)) : List Step :=
  (executeHandshake c svc_LOGIN).2 ++
    startParser (executeHandshake c svc_LOGIN).1 msgs

/-- `SendChatMessage`: no socket write without an authentication
ticket, otherwise one write of the encoded chat frame. -/
def SendChatMessage (c : Client) (message : String) : Except String (List Action) :=
  if c.token.authTicket == "" then
    .error "cannot non-member send message"
  else
    .ok [Action.write 5
      (makeHeader 5 (makeBuffer [[12], strBytes message, [12], strBytes "0", [12]]).length 0 ++
        makeBuffer [[12], strBytes message, [12], strBytes "0", [12]])]

/-- A JOIN-frame socket write. -/
def isJoinWrite (x : Step) : Bool :=
  match x with
  | (_, .write s _) => s == svc_JOINCH
  | _ => false

/-- A drained message that carries the LOGIN service code. -/
def isLoginRecv (x : Step) : Bool :=
  match x with
  | (_, .recv m) => hasCode m svc_LOGIN
  | _ => false

/-- Any socket write. -/
def isWriteAct (x : Step) : Bool :=
  match x with
  | (_, .write _ _) => true
  | _ => false

/-- The drained message of a `recv` step, if any. -/
def recvOf (x : Step) : Option (List Nat) :=
  match x with
  | (_, .recv m) => some m
  | _ => none

/-- A protocol-error observer invocation. -/
def isErrorEvt (x : Step) : Bool :=
  match x with
  | (_, .evt (.errorEvt _)) => true
  | _ => false

/-- A chat-message observer invocation. -/
def isChatEvt (x : Step) : Bool :=
  match x with
  | (_, .evt (.chatMessage _)) => true
  | _ => false

/-- A raw-message observer invocation. -/
def isRawEvt (x : Step) : Bool :=
  match x with
  | (_, .evt (.rawMessage _)) => true
  | _ => false

/-- Test client: built from a token with streamer id `"abc"` only. -/
def c0 : Client := { token := { StreamerID := "abc" } }

/-- A minimal inbound frame carrying the LOGIN service code. -/
def loginMsg : List Nat := makeHeader svc_LOGIN 0 0

/-- A chat-coded inbound frame with a malformed (empty) body. -/
def chatBad : List Nat := makeHeader svc_CHATMESG 0 0

theorem countP_evtsIf (p : Step → Bool) (b : Bool) (c : Client) (e : Event) :
    (evtsIf b c e).countP p = if b && p (c, .evt e) then 1 else 0 := by
  cases b <;> simp [evtsIf, List.countP_cons]

theorem mem_evtsIf {x : Step} {b : Bool} {c : Client} {e : Event}
    (h : x ∈ evtsIf b c e) : x = (c, .evt e) := by
  cases b with
  | false => simp [evtsIf] at h
  | true => simp [evtsIf] at h; simp [h]

theorem mem_parsedEvt {x : Step} {c : Client} {reg : Bool}
    {r : Except String (List (List Nat))} {mk : List (List Nat) → Event} {m : List Nat}
    (h : x ∈ parsedEvt c reg r mk m) :
    x = (c, .evt (.errorEvt m)) ∨ ∃ fs, x = (c, .evt (mk fs)) := by
  unfold parsedEvt at h
  cases reg with
  | false => simp at h
  | true =>
      simp at h
      cases r with
      | error e => exact Or.inl (mem_evtsIf h)
      | ok fs =>
          simp at h
          exact Or.inr ⟨fs, by simp [h]⟩

theorem countP_parsedEvt_zero (p : Step → Bool) (c : Client) (reg : Bool)
    (r : Except String (List (List Nat))) (mk : List (List Nat) → Event) (m : List Nat)
    (hmk : ∀ fs, p (c, .evt (mk fs)) = false)
    (herr : p (c, .evt (.errorEvt m)) = false) :
    (parsedEvt c reg r mk m).countP p = 0 := by
  rw [List.countP_eq_zero]
  intro x hx
  rcases mem_parsedEvt hx with h | ⟨fs, h⟩ <;> simp [h, herr, hmk]

theorem isJoinWrite_evt (c : Client) (e : Event) : isJoinWrite (c, .evt e) = false := rfl

theorem isJoinWrite_recv (c : Client) (m : List Nat) : isJoinWrite (c, .recv m) = false := rfl

theorem isJoinWrite_write (c : Client) (s : Nat) (f : List Nat) :
    isJoinWrite (c, .write s f) = (s == svc_JOINCH) := rfl

theorem isLoginRecv_evt (c : Client) (e : Event) : isLoginRecv (c, .evt e) = false := rfl

theorem isLoginRecv_recv (c : Client) (m : List Nat) :
    isLoginRecv (c, .recv m) = hasCode m svc_LOGIN := rfl

theorem isLoginRecv_write (c : Client) (s : Nat) (f : List Nat) :
    isLoginRecv (c, .write s f) = false := rfl

theorem executeHandshake_join_acts (c : Client) :
    (executeHandshake c svc_JOINCH).2 =
      (setJoinHandshake c,
        Action.write svc_JOINCH ((setJoinHandshake c).handshake.getD 1 [])) ::
        evtsIf (setJoinHandshake c).onConnect (setJoinHandshake c) (.connectEvt true) := rfl

theorem executeHandshake_join_client (c : Client) :
    (executeHandshake c svc_JOINCH).1 = setJoinHandshake c := rfl

theorem countP_join_switchCase (c : Client) (svc : Nat) (m : List Nat) :
    ((switchCase c svc m).2).countP isJoinWrite = if svc == svc_LOGIN then 1 else 0 := by
  unfold switchCase
  repeat' split
  · rw [executeHandshake_join_acts]
    simp_all [List.countP_cons, isJoinWrite_evt, isJoinWrite_write, countP_evtsIf]
  all_goals
    simp_all [countP_evtsIf, isJoinWrite_evt, List.countP_nil]
  all_goals
    intro a b hab
    rcases mem_parsedEvt hab with h' | ⟨fs, h'⟩ <;> rw [h'] <;> rfl

theorem shape_switchCase {x : Step} {c : Client} {svc : Nat} {m : List Nat}
    (h : x ∈ (switchCase c svc m).2) :
    (svc = svc_LOGIN ∧
      x = (setJoinHandshake c,
           Action.write svc_JOINCH ((setJoinHandshake c).handshake.getD 1 []))) ∨
    (∃ c' e, x = (c', Action.evt e)) := by
  unfold switchCase at h
  repeat' split at h
  all_goals
    first
    | (exact absurd h (List.not_mem_nil _))
    | (rw [executeHandshake_join_acts] at h
       rcases List.mem_cons.mp h with h' | h'
       · exact Or.inl ⟨by simp_all, h'⟩
       · exact Or.inr ⟨_, _, mem_evtsIf h'⟩)
    | (exact Or.inr ⟨_, _, mem_evtsIf h⟩)
    | (rcases mem_parsedEvt h with h' | ⟨fs, h'⟩
       · exact Or.inr ⟨_, _, h'⟩
       · exact Or.inr ⟨_, _, h'⟩)

theorem parserStep_acts (c : Client) (m : List Nat) :
    (parserStep c m).2 =
      evtsIf (isErrMsg m && c.onError) c (.errorEvt m) ++
      evtsIf c.onRawMessage c (.rawMessage m) ++
      (match getServiceCode m with
        | .error _ => evtsIf c.onError c (.errorEvt m)
        | .ok _ => []) ++
      (switchCase c (codeOrZero m) m).2 := rfl

theorem parserStep_client (c : Client) (m : List Nat) :
    (parserStep c m).1 = (switchCase c (codeOrZero m) m).1 := rfl

theorem hasCode_login (m : List Nat) :
    hasCode m svc_LOGIN = (codeOrZero m == svc_LOGIN) := by
  unfold hasCode codeOrZero
  cases getServiceCode m <;> simp [svc_LOGIN]

theorem countP_loginRecv_switchCase (c : Client) (svc : Nat) (m : List Nat) :
    ((switchCase c svc m).2).countP isLoginRecv = 0 := by
  rw [List.countP_eq_zero]
  intro x hx
  rcases shape_switchCase hx with ⟨_, rfl⟩ | ⟨c', e, rfl⟩ <;> simp [isLoginRecv_write, isLoginRecv_evt]

theorem countP_join_parserStep (c : Client) (m : List Nat) :
    ((parserStep c m).2).countP isJoinWrite = if hasCode m svc_LOGIN then 1 else 0 := by
  rw [parserStep_acts]
  simp only [List.countP_append, countP_evtsIf, isJoinWrite_evt, Bool.and_false,
    if_neg Bool.false_ne_true, countP_join_switchCase, hasCode_login]
  cases getServiceCode m <;> simp [countP_evtsIf, isJoinWrite_evt]

theorem countP_loginRecv_parserStep (c : Client) (m : List Nat) :
    ((parserStep c m).2).countP isLoginRecv = 0 := by
  rw [parserStep_acts]
  simp only [List.countP_append, countP_evtsIf, isLoginRecv_evt, Bool.and_false,
    if_neg Bool.false_ne_true, countP_loginRecv_switchCase]
  cases getServiceCode m <;> simp [countP_evtsIf, isLoginRecv_evt]

theorem countP_join_stepActs (c : Client) (m : List Nat) :
    (stepActs c m).countP isJoinWrite = if hasCode m svc_LOGIN then 1 else 0 := by
  unfold stepActs
  rw [List.countP_cons_of_neg _ _ (by simp [isJoinWrite_recv]), countP_join_parserStep]

theorem countP_loginRecv_stepActs (c : Client) (m : List Nat) :
    (stepActs c m).countP isLoginRecv = if hasCode m svc_LOGIN then 1 else 0 := by
  unfold stepActs
  rw [List.countP_cons, countP_loginRecv_parserStep, isLoginRecv_recv]
  simp

theorem stepActs_eq (c : Client) (m : List Nat) :
    stepActs c m = (c, .recv m) :: (parserStep c m).2 := rfl

theorem startParser_cons (c : Client) (m : List Nat) (rest : List (List Nat)) :
    startParser c (m :: rest) = stepActs c m ++ startParser (stepClient c m) rest := rfl

theorem executeHandshake_login_acts (c : Client) :
    (executeHandshake c svc_LOGIN).2 =
      [(setLoginHandshke c, Action.write svc_LOGIN ((setLoginHandshke c).handshake.getD 0 []))] := rfl

theorem executeHandshake_login_client (c : Client) :
    (executeHandshake c svc_LOGIN).1 = setLoginHandshke c := rfl

theorem prefix_append_cases {α : Type} {p l₁ l₂ : List α} (h : p <+: l₁ ++ l₂) :
    p <+: l₁ ∨ ∃ q, p = l₁ ++ q ∧ q <+: l₂ := by
  induction l₁ generalizing p with
  | nil => exact Or.inr ⟨p, rfl, h⟩
  | cons a t ih =>
      rcases List.prefix_cons_iff.mp h with rfl | ⟨q, rfl, hq⟩
      · exact Or.inl (List.nil_prefix ..)
      · rcases ih hq with h' | ⟨q', rfl, hq'⟩
        · exact Or.inl (List.cons_prefix_cons.mpr ⟨rfl, h'⟩)
        · exact Or.inr ⟨q', rfl, hq'⟩

theorem join_le_login_startParser :
    ∀ (msgs : List (List Nat)) (c : Client) (p : List Step),
      p <+: startParser c msgs → p.countP isJoinWrite ≤ p.countP isLoginRecv := by
  intro msgs
  induction msgs with
  | nil =>
      intro c p hp
      rw [show startParser c [] = [] from rfl] at hp
      rw [List.prefix_nil.mp hp]
      simp
  | cons m rest ih =>
      intro c p hp
      rw [startParser_cons] at hp
      rcases prefix_append_cases hp with h1 | ⟨q, rfl, hq⟩
      · rw [stepActs_eq] at h1
        rcases List.prefix_cons_iff.mp h1 with rfl | ⟨q, rfl, hq⟩
        · simp
        · have hqle : q.countP isJoinWrite ≤ ((parserStep c m).2).countP isJoinWrite :=
            hq.sublist.countP_le _
          rw [countP_join_parserStep] at hqle
          rw [List.countP_cons_of_neg _ _ (by simp [isJoinWrite_recv])]
          cases hcode : hasCode m svc_LOGIN
          · rw [hcode, if_neg (by simp)] at hqle
            rw [Nat.le_zero.mp hqle]
            exact Nat.zero_le _
          · rw [hcode, if_pos rfl] at hqle
            rw [List.countP_cons_of_pos _ _ (by rw [isLoginRecv_recv, hcode])]
            omega
      · rw [List.countP_append, List.countP_append, countP_join_stepActs,
          countP_loginRecv_stepActs]
        exact Nat.add_le_add_left (ih (stepClient c m) q hq) _

theorem countP_join_startParser (c : Client) (msgs : List (List Nat)) :
    (startParser c msgs).countP isJoinWrite =
      msgs.countP (fun m => hasCode m svc_LOGIN) := by
  induction msgs generalizing c with
  | nil => rfl
  | cons m rest ih =>
      rw [startParser_cons, List.countP_append, countP_join_stepActs, ih, List.countP_cons]
      omega

/-- C1: for every client, every interleaving of inbound frames and every
prefix of the session trace, the number of JOIN-frame socket writes never
exceeds the number of LOGIN-coded frames already observed from the
server — the JOIN frame is never transmitted before a LOGIN-coded frame
has been received, since the dispatcher's LOGIN case is the only path
that transmits it. -/
theorem claimC1_join_only_after_login (c : Client) (msgs : List (List Nat)) (p : List Step)
    (hp : p <+: processSocket c msgs) :
    p.countP isJoinWrite ≤ p.countP isLoginRecv := by
  unfold processSocket at hp
  rw [executeHandshake_login_acts, executeHandshake_login_client] at hp
  rcases prefix_append_cases hp with h1 | ⟨q, rfl, hq⟩
  · rcases List.prefix_cons_iff.mp h1 with rfl | ⟨q, rfl, hq⟩
    · simp
    · rw [List.prefix_nil.mp hq]
      simp [List.countP_cons, isJoinWrite_write, isLoginRecv_write, svc_LOGIN, svc_JOINCH]
  · rw [List.countP_append, List.countP_append]
    have h0 : ([(setLoginHandshke c,
        Action.write svc_LOGIN ((setLoginHandshke c).handshake.getD 0 []))] : List Step).countP
          isJoinWrite = 0 := by
      simp [List.countP_cons, isJoinWrite_write, svc_LOGIN, svc_JOINCH]
    rw [h0]
    have hrest := join_le_login_startParser msgs (setLoginHandshke c) q hq
    omega

/-- Witness for C1 at a concrete client and a single LOGIN-coded inbound
frame, taking the whole trace as the prefix. -/
theorem claimC1_witness :
    (processSocket c0 [loginMsg]).countP isJoinWrite ≤
      (processSocket c0 [loginMsg]).countP isLoginRecv :=
  claimC1_join_only_after_login c0 [loginMsg] _ (List.prefix_refl _)

/-- C8 counterexample: the code keeps no handshake phase variable, so two
inbound LOGIN-coded frames make the dispatcher transmit the JOIN frame
twice in one session — refuting "the JOIN frame is transmitted at most
once per session even if multiple LOGIN-coded frames arrive". -/
theorem claimC8_counterexample :
    (processSocket c0 [loginMsg, loginMsg]).countP isJoinWrite = 2 := by decide

/-- C8 amended: handshake phases do not only advance forward — the
dispatcher reacts to every inbound LOGIN-coded frame, so the JOIN frame
is transmitted exactly once per LOGIN-coded frame observed (hence it can
repeat); each JOIN transmission is still preceded by a LOGIN
observation. -/
theorem claimC8_amended_join_per_login (c : Client) (msgs : List (List Nat)) :
    (processSocket c msgs).countP isJoinWrite =
      msgs.countP (fun m => hasCode m svc_LOGIN) := by
  unfold processSocket
  rw [List.countP_append, executeHandshake_login_acts, executeHandshake_login_client,
    countP_join_startParser]
  simp [List.countP_cons, isJoinWrite_write, svc_LOGIN, svc_JOINCH]

theorem recvOf_parserStep (c : Client) (m : List Nat) :
    ∀ x ∈ (parserStep c m).2, recvOf x = none := by
  intro x hx
  rw [parserStep_acts] at hx
  simp only [List.mem_append] at hx
  rcases hx with ((hx | hx) | hx) | hx
  · rw [mem_evtsIf hx]; rfl
  · rw [mem_evtsIf hx]; rfl
  · cases hg : getServiceCode m with
    | error e => rw [hg] at hx; rw [mem_evtsIf hx]; rfl
    | ok s => rw [hg] at hx; exact absurd hx (List.not_mem_nil _)
  · rcases shape_switchCase hx with ⟨_, rfl⟩ | ⟨c', e, rfl⟩ <;> rfl

theorem startParser_recvs (c : Client) (msgs : List (List Nat)) :
    (startParser c msgs).filterMap recvOf = msgs := by
  induction msgs generalizing c with
  | nil => rfl
  | cons m rest ih =>
      rw [startParser_cons, List.filterMap_append, stepActs_eq, List.filterMap_cons]
      have h2 : ((parserStep c m).2).filterMap recvOf = [] :=
        List.filterMap_eq_nil_iff.mpr (recvOf_parserStep c m)
      simp [h2, ih]
      rfl

theorem startParser_append_split (c : Client) (xs ys : List (List Nat)) :
    startParser c (xs ++ ys) =
      startParser c xs ++ startParser (xs.foldl stepClient c) ys := by
  induction xs generalizing c with
  | nil => rfl
  | cons m rest ih =>
      rw [List.cons_append, startParser_cons, startParser_cons, ih]
      simp [List.append_assoc]

/-- C2: the dispatch loop is a single sequential consumer — for every
split of the inbound sequence, the trace of the whole sequence is the
trace of the first part followed by the trace of the second part from
the resulting state (so all actions for earlier frames precede all
actions for later frames), and the drained messages appear in the trace
exactly in enqueue order, each exactly once. -/
theorem claimC2_dispatch_in_order (c : Client) (xs ys : List (List Nat)) :
    startParser c (xs ++ ys) =
      startParser c xs ++ startParser (xs.foldl stepClient c) ys ∧
    (startParser c xs).filterMap recvOf = xs :=
  ⟨startParser_append_split c xs ys, startParser_recvs c xs⟩

/-- The LOGIN frame as built from a client's current session fields. -/
def loginFrameOf (c : Client) : List Nat :=
  (setLoginHandshke c).handshake.getD 0 []

/-- The JOIN frame as built from a client's current session fields. -/
def joinFrameOf (c : Client) : List Nat :=
  (setJoinHandshake c).handshake.getD 1 []

theorem rebuild_login (c : Client) :
    loginFrameOf (setLoginHandshke c) = (setLoginHandshke c).handshake.getD 0 [] := by
  unfold loginFrameOf setLoginHandshke setHandshakeData
  simp [List.set_set]

theorem rebuild_join (c : Client) :
    joinFrameOf (setJoinHandshake c) = (setJoinHandshake c).handshake.getD 1 [] := by
  unfold joinFrameOf setJoinHandshake setHandshakeData
  simp [List.set_set, joinInfoPacket]

theorem write_startParser {c : Client} {msgs : List (List Nat)} {s : Client}
    {svc : Nat} {b : List Nat}
    (h : (s, Action.write svc b) ∈ startParser c msgs) :
    svc = svc_JOINCH ∧ (∃ cp, s = setJoinHandshake cp) ∧ b = s.handshake.getD 1 [] := by
  induction msgs generalizing c with
  | nil => exact absurd h (List.not_mem_nil _)
  | cons m rest ih =>
      rw [startParser_cons, stepActs_eq] at h
      rcases List.mem_append.mp h with h' | h'
      · rcases List.mem_cons.mp h' with h'' | h''
        · exact absurd (congrArg Prod.snd h'') (by simp)
        · rw [parserStep_acts] at h''
          simp only [List.mem_append] at h''
          rcases h'' with ((hx | hx) | hx) | hx
          · exact absurd (congrArg Prod.snd (mem_evtsIf hx)) (by simp)
          · exact absurd (congrArg Prod.snd (mem_evtsIf hx)) (by simp)
          · cases hg : getServiceCode m with
            | error e =>
                rw [hg] at hx
                exact absurd (congrArg Prod.snd (mem_evtsIf hx)) (by simp)
            | ok sc => rw [hg] at hx; exact absurd hx (List.not_mem_nil _)
          · rcases shape_switchCase hx with ⟨_, hx'⟩ | ⟨c', e, hx'⟩
            · have hs : s = setJoinHandshake c := congrArg Prod.fst hx'
              have hb := congrArg Prod.snd hx'
              simp only [Action.write.injEq] at hb
              exact ⟨hb.1, ⟨c, hs⟩, by rw [hb.2, hs]⟩
            · exact absurd (congrArg Prod.snd hx') (by simp)
      · exact ih h'

/-- C3 counterexample: in the session trace of a concrete client, the
LOGIN frame is written to the socket while the JOIN cache slot is still
empty (the JOIN frame, which is nonempty once built, is only built upon
the LOGIN-coded server response) — refuting "both handshake frames are
built and stored in the cache before any frame is sent". -/
theorem claimC3_counterexample :
    (setLoginHandshke c0,
        Action.write svc_LOGIN ((setLoginHandshke c0).handshake.getD 0 []))
      ∈ processSocket c0 [] ∧
    (setLoginHandshke c0).handshake.getD 1 [] = [] ∧
    (setJoinHandshake (setLoginHandshke c0)).handshake.getD 1 [] ≠ [] := by
  decide

/-- C3 amended: each handshake frame is fully built from the session
state and stored in its cache slot before that frame is sent, and every
handshake write transmits exactly the cached bytes — but the two frames
are built one at a time, each immediately before its own transmission
(the JOIN frame only upon observing a LOGIN-coded frame), not both
before any network write. -/
theorem claimC3_amended_built_then_sent_verbatim (c : Client) (msgs : List (List Nat))
    (s : Client) (svc : Nat) (b : List Nat)
    (hmem : (s, Action.write svc b) ∈ processSocket c msgs) :
    (svc = svc_LOGIN ∧ b = s.handshake.getD 0 [] ∧ b = loginFrameOf s) ∨
    (svc = svc_JOINCH ∧ b = s.handshake.getD 1 [] ∧ b = joinFrameOf s) := by
  unfold processSocket at hmem
  rw [executeHandshake_login_acts, executeHandshake_login_client] at hmem
  rcases List.mem_append.mp hmem with h | h
  · rcases List.mem_cons.mp h with h' | h'
    · have hs : s = setLoginHandshke c := congrArg Prod.fst h'
      have hb := congrArg Prod.snd h'
      simp only [Action.write.injEq] at hb
      refine Or.inl ⟨hb.1, ?_, ?_⟩
      · rw [hb.2, hs]
      · rw [hb.2, hs, rebuild_login]
    · exact absurd h' (List.not_mem_nil _)
  · rcases write_startParser h with ⟨hsvc, ⟨cp, hs⟩, hb⟩
    refine Or.inr ⟨hsvc, hb, ?_⟩
    rw [hb, hs, rebuild_join]

/-- Witness for C3's amended theorem at the concrete initial LOGIN
write of a concrete session. -/
theorem claimC3_amended_witness :
    (svc_LOGIN = svc_LOGIN ∧
      (setLoginHandshke c0).handshake.getD 0 [] =
        (setLoginHandshke c0).handshake.getD 0 [] ∧
      (setLoginHandshke c0).handshake.getD 0 [] = loginFrameOf (setLoginHandshke c0)) ∨
    (svc_LOGIN = svc_JOINCH ∧
      (setLoginHandshke c0).handshake.getD 0 [] =
        (setLoginHandshke c0).handshake.getD 1 [] ∧
      (setLoginHandshke c0).handshake.getD 0 [] = joinFrameOf (setLoginHandshke c0)) :=
  claimC3_amended_built_then_sent_verbatim c0 [] (setLoginHandshke c0) svc_LOGIN
    ((setLoginHandshke c0).handshake.getD 0 []) (by decide)

/-- C4: with an empty authentication ticket `SendChatMessage` fails
immediately with the authentication error and performs no socket write
(the error result carries an empty write list); with a ticket present it
encodes the chat frame (service code 5) and performs exactly that one
socket write. -/
theorem claimC4_sendChat_requires_ticket (c : Client) (message : String) :
    (c.token.authTicket = "" →
      SendChatMessage c message = .error "cannot non-member send message") ∧
    (c.token.authTicket ≠ "" →
      SendChatMessage c message = .ok [Action.write 5
        (makeHeader 5 (makeBuffer [[12], strBytes message, [12], strBytes "0", [12]]).length 0 ++
          makeBuffer [[12], strBytes message, [12], strBytes "0", [12]])]) := by
  constructor
  · intro h
    unfold SendChatMessage
    rw [if_pos (by simp [h])]
  · intro h
    unfold SendChatMessage
    rw [if_neg (by simp [h])]

/-- Witness for C4: one concrete client without a ticket and one with a
ticket. -/
theorem claimC4_witness :
    SendChatMessage c0 "hi" = .error "cannot non-member send message" ∧
    SendChatMessage { c0 with token := { c0.token with authTicket := "t" } } "hi" =
      .ok [Action.write 5
        (makeHeader 5 (makeBuffer [[12], strBytes "hi", [12], strBytes "0", [12]]).length 0 ++
          makeBuffer [[12], strBytes "hi", [12], strBytes "0", [12]])] :=
  ⟨(claimC4_sendChat_requires_ticket c0 "hi").1 rfl,
   (claimC4_sendChat_requires_ticket _ "hi").2 (by decide)⟩

/-- C5: construction from a token with an empty streamer identifier
always fails with the configuration error (and the model performs no
I/O); any non-empty streamer identifier yields a fresh client with an
empty two-slot handshake cache. -/
theorem claimC5_newClient_requires_streamer (t : Token) :
    (t.StreamerID = "" → NewClient t = .error "StreamerID is missing from token") ∧
    (t.StreamerID ≠ "" →
      NewClient t = .ok { token := t, channelPassword := "", handshake := [[], []] }) := by
  constructor
  · intro h
    unfold NewClient
    rw [if_pos h]
  · intro h
    unfold NewClient
    rw [if_neg h]

/-- Witness for C5: the empty token fails, a token with streamer id
`"abc"` succeeds. -/
theorem claimC5_witness :
    NewClient {} = .error "StreamerID is missing from token" ∧
    NewClient { StreamerID := "abc" } =
      .ok { token := { StreamerID := "abc" }, channelPassword := "", handshake := [[], []] } :=
  ⟨(claimC5_newClient_requires_streamer {}).1 rfl,
   (claimC5_newClient_requires_streamer _).2 (by decide)⟩

/-- Whether a fallible parse succeeded. -/
def exceptOk (r : Except String (List (List Nat))) : Bool :=
  match r with
  | .ok _ => true
  | .error _ => false

theorem getServiceCode_ok_head {m : List Nat} {k : Nat}
    (h : getServiceCode m = .ok k) : m.getD 0 0 = 27 := by
  unfold getServiceCode at h
  split at h
  · exact absurd h (by simp)
  · rename_i h2
    split at h
    · exact absurd h (by simp)
    · push_neg at h2
      split at h
      · exact absurd h (by simp)
      · rename_i hne _
        push_neg at hne
        exact hne.1
  -- the shape of the guards forces the header bytes in the ok branch

theorem codeOrZero_of_ok {m : List Nat} {k : Nat}
    (h : getServiceCode m = .ok k) : codeOrZero m = k := by
  unfold codeOrZero
  rw [h]

theorem isErrMsg_of_code {m : List Nat} {k : Nat}
    (h : getServiceCode m = .ok k) : isErrMsg m = false := by
  have h27 := getServiceCode_ok_head h
  cases m with
  | nil => simp at h27
  | cons a rest =>
      have ha : a = 27 := by simpa using h27
      subst ha
      have hpre : strBytes "error: " = 101 :: [114, 114, 111, 114, 58, 32] := by decide
      rw [isErrMsg, hpre]
      simp [List.isPrefixOf]

/-- A concrete client with the error and chat-message observers
registered. -/
def cChat : Client := { c0 with onError := true, onChatMessage := true }

/-- A concrete client with only the error observer registered. -/
def cErr : Client := { c0 with onError := true }

/-- C6 counterexample: with no chat-message observer registered (the
dispatcher then never attempts the parse), a chat-coded frame with a
malformed body produces zero protocol-error events, not exactly one —
the claim as stated fails without the observer-registration premise. -/
theorem claimC6_counterexample :
    getServiceCode chatBad = .ok svc_CHATMESG ∧
    exceptOk (parseChatMessage chatBad) = false ∧
    ((parserStep c0 chatBad).2).countP isErrorEvt = 0 ∧
    ((parserStep c0 chatBad).2).countP isChatEvt = 0 := by
  refine ⟨rfl, rfl, ?_, ?_⟩ <;> decide

theorem switchCase_chat (c : Client) (m : List Nat) :
    switchCase c svc_CHATMESG m =
      (c, parsedEvt c c.onChatMessage (parseChatMessage m) Event.chatMessage m) := rfl

/-- C6 amended: when a chat-message observer and an error observer are
registered, a chat-coded frame whose body fails to parse yields exactly
one protocol-error event and zero chat-message events, the client state
is unchanged, and dispatch continues with the remaining frames. -/
theorem claimC6_amended_malformed_chat (c : Client) (m : List Nat)
    (hreg : c.onChatMessage = true) (herr : c.onError = true)
    (hcode : getServiceCode m = .ok svc_CHATMESG)
    (hbad : exceptOk (parseChatMessage m) = false) :
    ((parserStep c m).2).countP isErrorEvt = 1 ∧
    ((parserStep c m).2).countP isChatEvt = 0 ∧
    stepClient c m = c := by
  have hie := isErrMsg_of_code hcode
  have hco := codeOrZero_of_ok hcode
  have hswitch : switchCase c (codeOrZero m) m = (c, [(c, Action.evt (.errorEvt m))]) := by
    rw [hco, switchCase_chat]
    cases hpm : parseChatMessage m with
    | ok fs => rw [hpm] at hbad; simp [exceptOk] at hbad
    | error e => simp [parsedEvt, hreg, hpm, evtsIf, herr]
  have hacts : (parserStep c m).2 =
      evtsIf (isErrMsg m && c.onError) c (.errorEvt m) ++
      evtsIf c.onRawMessage c (.rawMessage m) ++ [] ++
      [(c, Action.evt (.errorEvt m))] := by
    rw [parserStep_acts, hcode]
    rw [show (switchCase c (codeOrZero m) m).2 = [(c, Action.evt (.errorEvt m))] from
      congrArg Prod.snd hswitch]
  refine ⟨?_, ?_, ?_⟩
  · rw [hacts, hie]
    simp [List.countP_append, countP_evtsIf, List.countP_cons, isErrorEvt]
  · rw [hacts, hie]
    simp [List.countP_append, countP_evtsIf, List.countP_cons, isErrorEvt, isChatEvt]
  · rw [show stepClient c m = (switchCase c (codeOrZero m) m).1 from rfl]
    rw [hswitch]

/-- Witness for C6's amended theorem: the malformed chat frame at a
client with chat and error observers registered. -/
theorem claimC6_amended_witness :
    ((parserStep cChat chatBad).2).countP isErrorEvt = 1 ∧
    ((parserStep cChat chatBad).2).countP isChatEvt = 0 ∧
    stepClient cChat chatBad = cChat :=
  claimC6_amended_malformed_chat cChat chatBad rfl rfl rfl rfl

/-- The service codes of the non-LOGIN event kinds (join
acknowledgement, roster, chat, balloon, ad-balloon, subscription new and
renewal, admin notice, mission). -/
def kindCodes : List Nat :=
  [svc_JOINCH, svc_CHUSER, svc_CHATMESG, svc_SENDBALLOON, svc_ADCON_EFFECT,
   svc_FOLLOW_ITEM, svc_FOLLOW_ITEM_EFFECT, svc_SENDADMINNOTICE, svc_MISSION]

/-- The registration status of the observer guarding a non-LOGIN event
kind. -/
def observerFor (c : Client) (k : Nat) : Bool :=
  if k == svc_JOINCH then c.onJoinChannel
  else if k == svc_CHUSER then c.onUserLists
  else if k == svc_CHATMESG then c.onChatMessage
  else if k == svc_SENDBALLOON then c.onBalloon
  else if k == svc_ADCON_EFFECT then c.onAdballoon
  else if k == svc_FOLLOW_ITEM || k == svc_FOLLOW_ITEM_EFFECT then c.onSubscription
  else if k == svc_SENDADMINNOTICE then c.onAdminNotice
  else if k == svc_MISSION then c.onMission
  else false

/-- C9: for every non-LOGIN event kind, with the kind's observer not
registered (and the raw observer not registered), a frame of that kind —
well-formed or malformed — produces no observer invocation at all and no
protocol-error event, even when the error observer is registered: the
dispatcher only attempts the parse behind the registration check. -/
theorem claimC9_no_observer_no_parse (c : Client) (m : List Nat) (k : Nat)
    (hk : getServiceCode m = .ok k) (hmem : k ∈ kindCodes)
    (hobs : observerFor c k = false) (hraw : c.onRawMessage = false) :
    (parserStep c m).2 = [] ∧ stepClient c m = c := by
  have hie := isErrMsg_of_code hk
  have hco := codeOrZero_of_ok hk
  simp only [kindCodes, List.mem_cons, List.not_mem_nil, or_false] at hmem
  rcases hmem with rfl | rfl | rfl | rfl | rfl | rfl | rfl | rfl | rfl <;>
    simp_all [parserStep_acts, stepClient, parserStep_client, observerFor, switchCase,
      parsedEvt, evtsIf, svc_LOGIN, svc_JOINCH, svc_CHUSER, svc_CHATMESG, svc_SENDBALLOON,
      svc_ADCON_EFFECT, svc_FOLLOW_ITEM, svc_FOLLOW_ITEM_EFFECT, svc_SENDADMINNOTICE,
      svc_MISSION]

/-- Witness for C9: a chat-coded frame at a client with only the error
observer registered produces nothing. -/
theorem claimC9_witness :
    (parserStep cErr chatBad).2 = [] ∧ stepClient cErr chatBad = cErr :=
  claimC9_no_observer_no_parse cErr chatBad svc_CHATMESG rfl (by decide) rfl rfl

theorem countP_raw_switchCase (c : Client) (svc : Nat) (m : List Nat) :
    ((switchCase c svc m).2).countP isRawEvt = 0 := by
  unfold switchCase
  repeat' split
  · rw [executeHandshake_join_acts]
    simp [List.countP_cons, countP_evtsIf, isRawEvt]
  all_goals
    simp_all [countP_evtsIf, List.countP_nil, isRawEvt]
  all_goals
    intro a b hab
    rcases mem_parsedEvt hab with h' | ⟨fs, h'⟩ <;> rw [h']

/-- C10: whenever the raw-message observer is registered, every drained
message — a decodable frame, a frame whose service code cannot be read,
or a synthetic read-error message — produces exactly one raw-message
invocation, and everything preceding it in the step's actions is a
protocol-error report (the synthetic read-error check), so the raw
invocation happens before all service-code dispatch. -/
theorem claimC10_raw_once_per_message (c : Client) (m : List Nat)
    (hraw : c.onRawMessage = true) :
    ((parserStep c m).2).countP isRawEvt = 1 ∧
    ∃ pre post,
      (parserStep c m).2 = pre ++ (c, Action.evt (.rawMessage m)) :: post ∧
      ∀ x ∈ pre, isErrorEvt x = true := by
  constructor
  · rw [parserStep_acts, hraw]
    simp only [List.countP_append, countP_evtsIf, countP_raw_switchCase]
    cases getServiceCode m <;> simp [countP_evtsIf, isRawEvt]
  · refine ⟨evtsIf (isErrMsg m && c.onError) c (.errorEvt m),
      (match getServiceCode m with
        | .error _ => evtsIf c.onError c (.errorEvt m)
        | .ok _ => []) ++ (switchCase c (codeOrZero m) m).2, ?_, ?_⟩
    · rw [parserStep_acts, hraw]
      simp [evtsIf, List.append_assoc]
    · intro x hx
      rw [mem_evtsIf hx]
      rfl

/-- A concrete client with only the raw-message observer registered. -/
def cRaw : Client := { c0 with onRawMessage := true }

/-- Witness for C10 at a concrete client and message. -/
theorem claimC10_witness :
    ((parserStep cRaw loginMsg).2).countP isRawEvt = 1 :=
  (claimC10_raw_once_per_message cRaw loginMsg rfl).1

/-- C7: in the JOIN frame's nested info and log blocks, a zero-valued
field is omitted entirely (no key, no separators, no empty value) — the
encoding of a list with a zero field equals the encoding with the field
removed — and a non-zero field contributes exactly its key/value pair
with the block's separator bytes. -/
theorem claimC7_sparse_blocks (xs ys : List (String × FieldVal)) (f : String × FieldVal) :
    (f.2.isZero = true →
      setInfoHandshake (xs ++ f :: ys) = setInfoHandshake (xs ++ ys) ∧
      setLogValue (xs ++ f :: ys) = setLogValue (xs ++ ys)) ∧
    (f.2.isZero = false →
      setInfoHandshake (xs ++ f :: ys) =
        setInfoHandshake xs ++ (strBytes f.1 ++ [17] ++ f.2.render ++ [18]) ++
          setInfoHandshake ys ∧
      setLogValue (xs ++ f :: ys) =
        setLogValue xs ++ ([6] ++ strBytes f.1 ++ [6, 61, 6] ++ f.2.render ++ [6, 38]) ++
          (ys.map logEntry).flatten) := by
  constructor
  · intro h
    constructor <;> simp [setInfoHandshake, setLogValue, infoEntry, logEntry, h]
  · intro h
    constructor <;>
      simp [setInfoHandshake, setLogValue, infoEntry, logEntry, h, List.append_assoc]

/-- Witness for C7: a zero-valued field vanishes from the info block, a
non-zero field is emitted with its separators. -/
theorem claimC7_witness :
    setInfoHandshake [("a", .str "x"), ("p", .str ""), ("b", .num 2)] =
      setInfoHandshake [("a", .str "x"), ("b", .num 2)] ∧
    setInfoHandshake [("q", .str "y")] =
      setInfoHandshake [] ++ (strBytes "q" ++ [17] ++ FieldVal.render (.str "y") ++ [18]) ++
        setInfoHandshake [] :=
  ⟨((claimC7_sparse_blocks [("a", .str "x")] [("b", .num 2)] ("p", .str "")).1 rfl).1,
   ((claimC7_sparse_blocks [] [] ("q", .str "y")).2 rfl).1⟩

end Soopchat
